import Mathlib

/-!
Verification of the WebChannel `Channel` delegate contract
(`goog.labs.net.webChannel.Channel`, `src/unnamed/part_000`), the transport
engine it serves (`ChannelEngine`, modelled from the spec where its code is
not among the repository's files), and `goog.ui.media.FlashObject.createDom`
(`src/closure/goog/ui/media/flashobject.js`).
-/

namespace WebChannel

/-- The possible right-hand sides of a prototype method assignment in the
modelled fragment: `goog.abstractMethod`, or a concrete function body (as
e.g. `flashobject.js` assigns). The `Channel` source file assigns every
method `goog.abstractMethod`. -/
inductive MethodImpl
  | abstractMethod
  | functionBody
  deriving DecidableEq, Repr

/-- Errors thrown by the JavaScript runtime in the modelled fragment.
`unimplementedAbstractMethod` is the error thrown by `goog.abstractMethod`. -/
inductive JsError
  | unimplementedAbstractMethod
  deriving DecidableEq, Repr

/-- Modelled from the spec: `goog.abstractMethod` (Closure `base.js`, not under
`src/`) — a stub that throws unconditionally when invoked, whatever the
arguments; §9 "originally expressed as a pure interface with stub methods".
A concrete function body returns normally (its behavior is out of scope
here). -/
def MethodImpl.invoke : MethodImpl → List String → Except JsError Unit
  | .abstractMethod, _ => .error .unimplementedAbstractMethod
  | .functionBody, _ => .ok ()

/-- The method declarations of `goog.labs.net.webChannel.Channel`
(`src/unnamed/part_000`, lines 52-200), in source order: each property name
assigned on `Channel.prototype`, with its assigned implementation. -/
def channelDeclarations : List (String × MethodImpl) :=
  [("shouldUseSecondaryDomains", .abstractMethod),
   ("createXhrIo", .abstractMethod),
   ("onRequestComplete", .abstractMethod),
   ("isClosed", .abstractMethod),
   ("onRequestData", .abstractMethod),
   ("onFirstByteReceived", .abstractMethod),
   ("isActive", .abstractMethod),
   ("getForwardChannelUri", .abstractMethod),
   ("getBackChannelUri", .abstractMethod),
   ("correctHostPrefix", .abstractMethod),
   ("createDataUri", .abstractMethod),
   ("getConnectionState", .abstractMethod),
   ("setHttpSessionIdParam", .abstractMethod),
   ("getHttpSessionIdParam", .abstractMethod),
   ("setHttpSessionId", .abstractMethod),
   ("getHttpSessionId", .abstractMethod),
   ("usesFetchStreams", .abstractMethod)]

/-- The Delegate capability set as the spec enumerates it (§4.5): the
operations the spec says `ChannelEngine` consumes. -/
def delegateCapabilitySet : List String :=
  ["shouldUseSecondaryDomains", "correctHostPrefix", "createXhrIo",
   "onRequestComplete", "onRequestData", "onFirstByteReceived",
   "isClosed", "isActive", "getForwardChannelUri", "getBackChannelUri",
   "createDataUri", "getConnectionState", "getHttpSessionIdParam",
   "setHttpSessionIdParam", "getHttpSessionId", "setHttpSessionId",
   "usesFetchStreams"]

/-- Modelled from the spec: the `ConnectionState` values a channel's
ConnectivityTracker accumulates (§4.4); the `ConnectionState` class itself is
only `goog.requireType`'d by the source file and is not under `src/`. -/
inductive ConnState
  | unknown
  | ok
  | degraded
  deriving DecidableEq, Repr

/-- Modelled from the spec: the ConnectivityTracker step on one request
completion (§4.4): any successful completion yields `ok`, any failed
completion yields `degraded`. -/
def ConnState.onCompletion : ConnState → Bool → ConnState
  | _, true => .ok
  | _, false => .degraded

/-- Modelled from the spec: the observable state of one `ChannelEngine`
instance (§3, §4.1): the closed flag, the in-flight request count of each
sub-channel kind, the internal queue of forward payloads not yet dispatched,
and ghost histories — payloads dispatched to the server in dispatch order
(`sentToServer`), payloads accepted by `sendForward` in call order
(`acceptedSends`), and response chunks delivered to the Delegate in delivery
order (`delivered`). -/
structure EngineState where
  closed : Bool
  forwardInFlight : Nat
  backInFlight : Nat
  forwardQueue : List String
  sentToServer : List String
  acceptedSends : List String
  connState : ConnState
  delivered : List String
  deriving DecidableEq, Repr

/-- The state of a freshly opened channel: nothing in flight, nothing queued,
connectivity unknown. -/
def initialState : EngineState :=
  { closed := false, forwardInFlight := 0, backInFlight := 0,
    forwardQueue := [], sentToServer := [], acceptedSends := [],
    connState := .unknown, delivered := [] }

/-- The error taxonomy entry for operations attempted after close (§7). -/
inductive ChannelError
  | channelClosed
  deriving DecidableEq, Repr

/-- Modelled from the spec: `sendForward(payload)` (§4.1): fails with
`ChannelClosedError` if the channel is closed; queues internally if a forward
request is already outstanding; otherwise dispatches the payload at once. -/
def sendForward (s : EngineState) (p : String) : Except ChannelError EngineState :=
  if s.closed then .error .channelClosed
  else if s.forwardInFlight = 0 then
    .ok { s with forwardInFlight := 1,
                 sentToServer := s.sentToServer ++ [p],
                 acceptedSends := s.acceptedSends ++ [p] }
  else
    .ok { s with forwardQueue := s.forwardQueue ++ [p],
                 acceptedSends := s.acceptedSends ++ [p] }

/-- Modelled from the spec: `openBackChannel()` (§4.1): precondition channel
not closed; at most one open back-channel request exists, and re-invocation
while one is outstanding is a no-op. -/
def openBackChannel (s : EngineState) : EngineState :=
  if s.closed then s
  else if s.backInFlight = 0 then { s with backInFlight := 1 }
  else s

/-- Modelled from the spec: closing the channel (§5): `isClosed()` becomes
true; outstanding requests are aborted by the RequestExecutor, which still
reports each abort through its terminal completion event. -/
def closeChannel (s : EngineState) : EngineState :=
  { s with closed := true }

/-- Modelled from the spec: `onRequestComplete` for a forward request (§4.1):
clears the pending request, updates `ConnectionState`, and — when the channel
is still open — dispatches the next queued payload, preserving queue order. -/
def onForwardComplete (s : EngineState) (success : Bool) : EngineState :=
  if s.forwardInFlight = 0 then s
  else
    let t := { s with forwardInFlight := s.forwardInFlight - 1,
                      connState := s.connState.onCompletion success }
    if t.closed then t
    else
      match t.forwardQueue with
      | [] => t
      | p :: rest =>
        { t with forwardInFlight := 1, forwardQueue := rest,
                 sentToServer := t.sentToServer ++ [p] }

/-- Modelled from the spec: `onRequestComplete` for the back-channel request
(§4.1): clears the pending request and updates `ConnectionState`; if the
request completed without an explicit close signal from the server and the
channel is not closed, the engine immediately reopens the back channel; if
the channel is closed, no reopening occurs. -/
def onBackComplete (s : EngineState) (success : Bool) (serverClose : Bool) :
    EngineState :=
  if s.backInFlight = 0 then s
  else
    let t := { s with backInFlight := s.backInFlight - 1,
                      connState := s.connState.onCompletion success }
    if t.closed = false ∧ serverClose = false then { t with backInFlight := 1 }
    else t

/-- Modelled from the spec: `onRequestData(request, responseText)` (§4.1, §5):
delivers the chunk to the Delegate verbatim and in arrival order; data
arriving after cancellation has been requested is discarded, not delivered. -/
def onRequestData (s : EngineState) (chunk : String) : EngineState :=
  if s.closed then s else { s with delivered := s.delivered ++ [chunk] }

/-- The events one channel instance processes sequentially (§5): application
calls (`send`, `openBack`, `closeEvt`) and RequestExecutor callbacks
(`forwardDone`, `backDone` with its server-close signal, `data`). -/
inductive Event
  | send (p : String)
  | openBack
  | closeEvt
  | forwardDone (success : Bool)
  | backDone (success : Bool) (serverClose : Bool)
  | data (chunk : String)
  deriving DecidableEq, Repr

/-- One step of the engine's single-threaded event loop (§5): each event is
dispatched and fully handled before the next is accepted. A `send` that
fails with `ChannelClosedError` leaves the state unchanged. -/
def engineStep (s : EngineState) : Event → EngineState
  | .send p => match sendForward s p with
               | .ok t => t
               | .error _ => s
  | .openBack => openBackChannel s
  | .closeEvt => closeChannel s
  | .forwardDone b => onForwardComplete s b
  | .backDone b c => onBackComplete s b c
  | .data c => onRequestData s c

/-- Processing a whole event sequence from a given state. -/
def engineRun (s : EngineState) (evs : List Event) : EngineState :=
  evs.foldl engineStep s

/-- The engine's inductive state invariant (§3, §5): at most one in-flight
request per sub-channel kind; the dispatched payloads followed by the queued
payloads are exactly the accepted payloads in call order; and while the
channel is open, the queue drains whenever no forward request is in flight. -/
def EngineInv (s : EngineState) : Prop :=
  s.forwardInFlight ≤ 1 ∧ s.backInFlight ≤ 1 ∧
  s.sentToServer ++ s.forwardQueue = s.acceptedSends ∧
  (s.closed = false → s.forwardInFlight = 0 → s.forwardQueue = [])

/-- Modelled from the spec: the two Delegate policy queries consulted before
any cross-domain URI is built (§4.1, §4.2): `shouldUseSecondaryDomains()`,
here the field `useSecondaryDomains`, and `correctHostPrefix(serverHostPrefix)`,
here the field `correctHost`, which may override or veto (return null) the
server-suggested prefix. -/
structure DelegatePolicy where
  useSecondaryDomains : Bool
  correctHost : Option String → Option String

/-- Modelled from the spec: HostPrefixResolver (§4.2): given the
server-suggested prefix (possibly null), returns the final prefix to use, or
null meaning "use primary domain" — the suggestion is honored only if the
Delegate reports that secondary domains should be used, and then only as
corrected by the Delegate. -/
def resolveHost (d : DelegatePolicy) (serverSuggested : Option String) :
    Option String :=
  if d.useSecondaryDomains then d.correctHost serverSuggested else none

/-- Modelled from the spec: URI construction (§6): a null effective host
prefix addresses the primary domain; a non-null one addresses the secondary
domain it names, prepended to the primary host. -/
def buildUri : Option String → String → String → String
  | none, host, path => host ++ path
  | some pfx, host, path => pfx ++ "." ++ host ++ path

end WebChannel

namespace FlashObjectModel

/-- A DOM element as far as `FlashObject.createDom` observes it: the tag name
passed to `createElement` and the class name assigned to `className`. -/
structure DomElement where
  tagName : String
  className : String
  deriving DecidableEq, Repr

/-- The fields of a `goog.ui.media.FlashObject` component that its methods
read or write (`flashobject.js`): the SWF URL, wmode, optional minimum
required flash version (`requiredVersion_`), size, background color,
`allowScriptAccess`, the flash variables, and the component's root element
(`null` until `createDom`/`setElementInternal` sets it). -/
structure FlashObject where
  flashUrl : String
  wmode : String
  requiredVersion : Option String
  width : Option String
  height : Option String
  backgroundColor : String
  allowScriptAccess : String
  flashVars : List (String × String)
  element : Option DomElement
  deriving DecidableEq, Repr

/-- `goog.ui.media.FlashObject.CSS_CLASS = goog.getCssName('goog-ui-media-flash')`
(line 193); `goog.getCssName` is the identity under the default (no) renaming
map. -/
def CSS_CLASS : String := "goog-ui-media-flash"

/-- `FlashObject.prototype.hasRequiredVersion` (lines 451-454):
`this.requiredVersion_ != null`. -/
def FlashObject.hasRequiredVersion (o : FlashObject) : Bool :=
  o.requiredVersion.isSome

/-- The error thrown by `createDom`:
`goog.ui.Component.Error.NOT_SUPPORTED`. -/
inductive ComponentError
  | notSupported
  deriving DecidableEq, Repr

/-- `FlashObject.prototype.createDom` (lines 507-521), parameterized by the
environment's `goog.userAgent.flash.isVersion` check: if a required version
is set and the installed plugin does not satisfy it, throw
`Error(goog.ui.Component.Error.NOT_SUPPORTED)`; otherwise create a `DIV`
element, give it class `CSS_CLASS`, and set it as the component's element.
(`this.getRequiredVersion()` is only read under the `hasRequiredVersion`
guard, where it is the stored version string.) -/
def FlashObject.createDom (isVersion : String → Bool) (o : FlashObject) :
    Except ComponentError FlashObject :=
  if o.hasRequiredVersion && !(isVersion (o.requiredVersion.getD "")) then
    .error .notSupported
  else
    .ok { o with element := some { tagName := "DIV", className := CSS_CLASS } }

end FlashObjectModel

namespace WebChannel

/-- Once the channel is closed, a single event can neither reopen it nor
deliver data: `closed` stays true and `delivered` is unchanged. -/
theorem engineStep_closed_frozen (s : EngineState) (e : Event)
    (h : s.closed = true) :
    (engineStep s e).closed = true ∧ (engineStep s e).delivered = s.delivered := by
  cases e with
  | send p => simp [engineStep, sendForward, h]
  | openBack => simp [engineStep, openBackChannel, h]
  | closeEvt => simp [engineStep, closeChannel]
  | forwardDone b =>
    by_cases h0 : s.forwardInFlight = 0
    · simp [engineStep, onForwardComplete, h0, h]
    · simp [engineStep, onForwardComplete, h0, h]
  | backDone b c =>
    by_cases h0 : s.backInFlight = 0
    · simp [engineStep, onBackComplete, h0, h]
    · simp [engineStep, onBackComplete, h0, h]
  | data c => simp [engineStep, onRequestData, h]

/-- Once the channel is closed, no later event sequence reopens it or
delivers data. -/
theorem engineRun_closed_frozen (s : EngineState) (evs : List Event)
    (h : s.closed = true) :
    (engineRun s evs).closed = true ∧ (engineRun s evs).delivered = s.delivered := by
  induction evs generalizing s with
  | nil => exact ⟨h, rfl⟩
  | cons e evs ih =>
    have h1 := engineStep_closed_frozen s e h
    have h2 := ih (engineStep s e) h1.1
    exact ⟨h2.1, h2.2.trans h1.2⟩

/-- A completion never leaves the tracker in the `unknown` state. -/
theorem onCompletion_ne_unknown (c : ConnState) (b : Bool) :
    ConnState.onCompletion c b ≠ ConnState.unknown := by
  cases b <;> simp [ConnState.onCompletion]

/-- A forward completion that is actually pending steps the tracker. -/
theorem onForwardComplete_connState_pending (s : EngineState) (b : Bool)
    (h0 : s.forwardInFlight ≠ 0) :
    (onForwardComplete s b).connState = ConnState.onCompletion s.connState b := by
  simp only [onForwardComplete, if_neg h0]
  split
  · rfl
  · split <;> rfl

/-- A back completion that is actually pending steps the tracker. -/
theorem onBackComplete_connState_pending (s : EngineState) (b c : Bool)
    (h0 : s.backInFlight ≠ 0) :
    (onBackComplete s b c).connState = ConnState.onCompletion s.connState b := by
  simp only [onBackComplete, if_neg h0]
  split <;> rfl

/-- Every step leaves the tracker alone or steps it by one completion. -/
theorem engineStep_connState (s : EngineState) (e : Event) :
    (engineStep s e).connState = s.connState ∨
    ∃ b, (engineStep s e).connState = ConnState.onCompletion s.connState b := by
  cases e with
  | send p =>
    left
    cases hc : s.closed with
    | true => simp [engineStep, sendForward, hc]
    | false =>
      by_cases h0 : s.forwardInFlight = 0 <;>
        simp [engineStep, sendForward, hc, h0]
  | openBack =>
    left
    cases hc : s.closed with
    | true => simp [engineStep, openBackChannel, hc]
    | false =>
      by_cases h0 : s.backInFlight = 0 <;>
        simp [engineStep, openBackChannel, hc, h0]
  | closeEvt => left; rfl
  | forwardDone b =>
    by_cases h0 : s.forwardInFlight = 0
    · left; simp [engineStep, onForwardComplete, h0]
    · exact Or.inr ⟨b, onForwardComplete_connState_pending s b h0⟩
  | backDone b c =>
    by_cases h0 : s.backInFlight = 0
    · left; simp [engineStep, onBackComplete, h0]
    · exact Or.inr ⟨b, onBackComplete_connState_pending s b c h0⟩
  | data c =>
    left
    cases hc : s.closed <;> simp [engineStep, onRequestData, hc]

/-- One step never takes the tracker back to `unknown`. -/
theorem engineStep_ne_unknown (s : EngineState) (e : Event)
    (h : s.connState ≠ ConnState.unknown) :
    (engineStep s e).connState ≠ ConnState.unknown := by
  rcases engineStep_connState s e with h1 | ⟨b, h1⟩
  · rw [h1]; exact h
  · rw [h1]; exact onCompletion_ne_unknown _ b

/-- No event sequence takes the tracker back to `unknown`. -/
theorem engineRun_ne_unknown (s : EngineState) (evs : List Event)
    (h : s.connState ≠ ConnState.unknown) :
    (engineRun s evs).connState ≠ ConnState.unknown := by
  induction evs generalizing s with
  | nil => exact h
  | cons e evs ih => exact ih (engineStep s e) (engineStep_ne_unknown s e h)

/-- The fresh channel satisfies the engine invariant. -/
theorem engineInv_initial : EngineInv initialState := by
  refine ⟨?_, ?_, ?_, ?_⟩ <;> simp [EngineInv, initialState]

/-- Every event preserves the engine invariant. -/
theorem engineInv_step (s : EngineState) (e : Event) (h : EngineInv s) :
    EngineInv (engineStep s e) := by
  obtain ⟨hf, hb, heq, hq⟩ := h
  cases e with
  | send p =>
    cases hc : s.closed with
    | true =>
      have hs : engineStep s (.send p) = s := by
        simp [engineStep, sendForward, hc]
      rw [hs]
      exact ⟨hf, hb, heq, hq⟩
    | false =>
      by_cases h0 : s.forwardInFlight = 0
      · have hqe : s.forwardQueue = [] := hq hc h0
        have hs : engineStep s (.send p) =
            { s with forwardInFlight := 1,
                     sentToServer := s.sentToServer ++ [p],
                     acceptedSends := s.acceptedSends ++ [p] } := by
          simp [engineStep, sendForward, hc, h0]
        rw [hs]
        refine ⟨by simp, hb, ?_, ?_⟩
        · show s.sentToServer ++ [p] ++ s.forwardQueue = s.acceptedSends ++ [p]
          rw [hqe, List.append_nil]
          rw [hqe, List.append_nil] at heq
          rw [heq]
        · intro _ h1
          simp at h1
      · have hs : engineStep s (.send p) =
            { s with forwardQueue := s.forwardQueue ++ [p],
                     acceptedSends := s.acceptedSends ++ [p] } := by
          simp [engineStep, sendForward, hc, h0]
        rw [hs]
        refine ⟨hf, hb, ?_, fun _ h1 => absurd h1 h0⟩
        show s.sentToServer ++ (s.forwardQueue ++ [p]) = s.acceptedSends ++ [p]
        rw [← List.append_assoc, heq]
  | openBack =>
    cases hc : s.closed with
    | true =>
      have hs : engineStep s .openBack = s := by
        simp [engineStep, openBackChannel, hc]
      rw [hs]
      exact ⟨hf, hb, heq, hq⟩
    | false =>
      by_cases h0 : s.backInFlight = 0
      · have hs : engineStep s .openBack = { s with backInFlight := 1 } := by
          simp [engineStep, openBackChannel, hc, h0]
        rw [hs]
        exact ⟨hf, by simp, heq, hq⟩
      · have hs : engineStep s .openBack = s := by
          simp [engineStep, openBackChannel, hc, h0]
        rw [hs]
        exact ⟨hf, hb, heq, hq⟩
  | closeEvt =>
    refine ⟨hf, hb, heq, fun h1 => ?_⟩
    simp [engineStep, closeChannel] at h1
  | forwardDone b =>
    by_cases h0 : s.forwardInFlight = 0
    · have hs : engineStep s (.forwardDone b) = s := by
        simp [engineStep, onForwardComplete, h0]
      rw [hs]
      exact ⟨hf, hb, heq, hq⟩
    · cases hc : s.closed with
      | true =>
        have hs : engineStep s (.forwardDone b) =
            { s with forwardInFlight := s.forwardInFlight - 1,
                     connState := s.connState.onCompletion b } := by
          simp [engineStep, onForwardComplete, h0, hc]
        rw [hs]
        refine ⟨Nat.le_trans (Nat.sub_le _ _) hf, hb, heq, fun h1 => ?_⟩
        simp [hc] at h1
      | false =>
        cases hqe : s.forwardQueue with
        | nil =>
          have hs : engineStep s (.forwardDone b) =
              { s with forwardInFlight := s.forwardInFlight - 1,
                       connState := s.connState.onCompletion b } := by
            simp [engineStep, onForwardComplete, h0, hc, hqe]
          rw [hs]
          exact ⟨Nat.le_trans (Nat.sub_le _ _) hf, hb, heq, fun _ _ => hqe⟩
        | cons q rest =>
          have hs : engineStep s (.forwardDone b) =
              { s with forwardInFlight := 1, forwardQueue := rest,
                       sentToServer := s.sentToServer ++ [q],
                       connState := s.connState.onCompletion b } := by
            simp [engineStep, onForwardComplete, h0, hc, hqe]
          rw [hs]
          refine ⟨le_refl 1, hb, ?_, fun _ h1 => by simp at h1⟩
          show s.sentToServer ++ [q] ++ rest = s.acceptedSends
          rw [List.append_assoc, List.singleton_append, ← hqe, heq]
  | backDone b c =>
    by_cases h0 : s.backInFlight = 0
    · have hs : engineStep s (.backDone b c) = s := by
        simp [engineStep, onBackComplete, h0]
      rw [hs]
      exact ⟨hf, hb, heq, hq⟩
    · by_cases hcond : s.closed = false ∧ c = false
      · have hs : engineStep s (.backDone b c) =
            { s with backInFlight := 1,
                     connState := s.connState.onCompletion b } := by
          simp [engineStep, onBackComplete, h0, hcond.1, hcond.2]
        rw [hs]
        exact ⟨hf, le_refl 1, heq, hq⟩
      · have hs : engineStep s (.backDone b c) =
            { s with backInFlight := s.backInFlight - 1,
                     connState := s.connState.onCompletion b } := by
          simp only [engineStep, onBackComplete, if_neg h0]
          rw [if_neg hcond]
        rw [hs]
        exact ⟨hf, Nat.le_trans (Nat.sub_le _ _) hb, heq, hq⟩
  | data ch =>
    cases hc : s.closed with
    | true =>
      have hs : engineStep s (.data ch) = s := by
        simp [engineStep, onRequestData, hc]
      rw [hs]
      exact ⟨hf, hb, heq, hq⟩
    | false =>
      have hs : engineStep s (.data ch) =
          { s with delivered := s.delivered ++ [ch] } := by
        simp [engineStep, onRequestData, hc]
      rw [hs]
      exact ⟨hf, hb, heq, hq⟩

/-- Every state the engine reaches from a fresh channel satisfies the
invariant. -/
theorem engineInv_run (evs : List Event) :
    EngineInv (engineRun initialState evs) := by
  suffices h : ∀ s, EngineInv s → EngineInv (engineRun s evs) from
    h _ engineInv_initial
  induction evs with
  | nil => exact fun s hs => hs
  | cons e evs ih => exact fun s hs => ih _ (engineInv_step s e hs)

/-- A back completion on a closed channel never reopens the back channel. -/
theorem onBackComplete_closed_noReopen (s : EngineState) (b c : Bool)
    (hb : s.backInFlight ≤ 1) (hc : s.closed = true) :
    (onBackComplete s b c).backInFlight = 0 := by
  by_cases h0 : s.backInFlight = 0
  · simp [onBackComplete, h0]
  · have h1 : s.backInFlight = 1 := by omega
    simp [onBackComplete, h0, hc, h1]

end WebChannel

/-- Claim C1: the Delegate capability set consumed by ChannelEngine consists
exactly of the seventeen enumerated operations: every operation of the spec's
list is declared on the `Channel` interface, and the `Channel` interface
declares no operation outside that list. -/
theorem claimC1_delegate_capability_set :
    (WebChannel.delegateCapabilitySet.all
      (fun op => (WebChannel.channelDeclarations.map Prod.fst).contains op)) = true ∧
    (WebChannel.channelDeclarations.all
      (fun d => WebChannel.delegateCapabilitySet.contains d.1)) = true := by
  decide

/-- Claim C9: all seventeen operations declared on the `Channel` interface
are assigned `goog.abstractMethod` — declarations only, no implementation —
so invoking any of them unoverridden throws unconditionally, for every
input. -/
theorem claimC9_abstract_declarations :
    WebChannel.channelDeclarations.length = 17 ∧
    (∀ d ∈ WebChannel.channelDeclarations,
      d.2 = WebChannel.MethodImpl.abstractMethod) ∧
    (∀ d ∈ WebChannel.channelDeclarations, ∀ args,
      WebChannel.MethodImpl.invoke d.2 args =
        Except.error WebChannel.JsError.unimplementedAbstractMethod) := by
  have hall : ∀ d ∈ WebChannel.channelDeclarations,
      d.2 = WebChannel.MethodImpl.abstractMethod := by decide
  refine ⟨rfl, hall, fun d hd args => ?_⟩
  rw [hall d hd]
  rfl

/-- Witness for C9: `isClosed` is declared abstract, and invoking it with no
arguments throws `unimplemented abstract method`. -/
theorem claimC9_witness :
    ("isClosed", WebChannel.MethodImpl.abstractMethod) ∈
        WebChannel.channelDeclarations ∧
    WebChannel.MethodImpl.invoke WebChannel.MethodImpl.abstractMethod [] =
      Except.error WebChannel.JsError.unimplementedAbstractMethod := by
  have h := claimC9_abstract_declarations
  exact ⟨by decide, h.2.2 ("isClosed", .abstractMethod) (by decide) []⟩

/-- Claim C2: if the Delegate vetoes secondary domains or its host-prefix
correction rejects the server-suggested prefix, the effective host prefix is
null and every URI the engine builds uses the primary domain; a suggested
prefix is used only when the Delegate both allows secondary domains and
approves that prefix. -/
theorem claimC2_host_veto (d : WebChannel.DelegatePolicy)
    (sp : Option String) (host path : String) :
    ((d.useSecondaryDomains = false ∨ d.correctHost sp = none) →
      WebChannel.resolveHost d sp = none ∧
      WebChannel.buildUri (WebChannel.resolveHost d sp) host path =
        host ++ path) ∧
    (∀ p, WebChannel.resolveHost d sp = some p →
      d.useSecondaryDomains = true ∧ d.correctHost sp = some p) := by
  constructor
  · rintro (h | h)
    · simp [WebChannel.resolveHost, h, WebChannel.buildUri]
    · cases hu : d.useSecondaryDomains <;>
        simp [WebChannel.resolveHost, hu, h, WebChannel.buildUri]
  · intro p hp
    cases hu : d.useSecondaryDomains with
    | false => simp [WebChannel.resolveHost, hu] at hp
    | true =>
      simp [WebChannel.resolveHost, hu] at hp
      exact ⟨rfl, hp⟩

/-- Witness for C2: a Delegate that vetoes secondary domains while the server
suggests prefix `b2` still yields a primary-domain URI. -/
theorem claimC2_witness :
    WebChannel.resolveHost
      { useSecondaryDomains := false, correctHost := fun x => x }
      (some "b2") = none ∧
    WebChannel.buildUri
      (WebChannel.resolveHost
        { useSecondaryDomains := false, correctHost := fun x => x }
        (some "b2")) "example.com" "/channel" = "example.com" ++ "/channel" :=
  (claimC2_host_veto _ (some "b2") "example.com" "/channel").1 (Or.inl rfl)

/-- Claim C3: the connection state steps to `ok` on any successful completion
and to `degraded` on any failed one (so `unknown → ok`, `ok → degraded`,
`degraded → ok` as the spec states); every processed completion applies this
step; and once the state has left `unknown`, no event sequence brings it
back. -/
theorem claimC3_connection_state (s : WebChannel.EngineState) (b : Bool)
    (evs : List WebChannel.Event) :
    (∀ c : WebChannel.ConnState,
      WebChannel.ConnState.onCompletion c b =
        (if b then WebChannel.ConnState.ok else WebChannel.ConnState.degraded)) ∧
    (s.forwardInFlight ≠ 0 →
      (WebChannel.onForwardComplete s b).connState =
        WebChannel.ConnState.onCompletion s.connState b) ∧
    (∀ sc, s.backInFlight ≠ 0 →
      (WebChannel.onBackComplete s b sc).connState =
        WebChannel.ConnState.onCompletion s.connState b) ∧
    (∀ c : WebChannel.ConnState,
      WebChannel.ConnState.onCompletion c b ≠ WebChannel.ConnState.unknown) ∧
    (s.connState ≠ WebChannel.ConnState.unknown →
      (WebChannel.engineRun s evs).connState ≠ WebChannel.ConnState.unknown) := by
  refine ⟨?_, ?_, ?_, ?_, ?_⟩
  · intro c; cases b <;> simp [WebChannel.ConnState.onCompletion]
  · exact fun h => WebChannel.onForwardComplete_connState_pending s b h
  · exact fun sc h => WebChannel.onBackComplete_connState_pending s b sc h
  · exact fun c => WebChannel.onCompletion_ne_unknown c b
  · exact fun h => WebChannel.engineRun_ne_unknown s evs h

/-- Witness for C3: a failed completion processed on a channel whose back
request is pending moves the state to `degraded`, and a subsequent success
event sequence never shows `unknown` again. -/
theorem claimC3_witness :
    (WebChannel.onForwardComplete
      { WebChannel.initialState with forwardInFlight := 1 } false).connState =
      WebChannel.ConnState.onCompletion
        ({ WebChannel.initialState with
            forwardInFlight := 1 } : WebChannel.EngineState).connState false ∧
    (WebChannel.engineRun
      { WebChannel.initialState with connState := WebChannel.ConnState.ok }
      [WebChannel.Event.openBack]).connState ≠ WebChannel.ConnState.unknown := by
  constructor
  · exact (claimC3_connection_state _ false []).2.1 (by decide)
  · exact (claimC3_connection_state
      { WebChannel.initialState with connState := WebChannel.ConnState.ok }
      true [WebChannel.Event.openBack]).2.2.2.2 (by decide)

/-- Claim C4: in every reachable state at most one request per sub-channel
kind is in flight; the payloads dispatched to the server followed by the
queued ones are exactly the accepted `sendForward` payloads in call order
(so the server-observed order is a prefix of, and agrees with, the call
order); and no forward payload is dispatched while another forward request
is in flight. -/
theorem claimC4_single_flight_ordering (evs : List WebChannel.Event)
    (t : WebChannel.EngineState) (p : String) (t2 : WebChannel.EngineState) :
    (WebChannel.engineRun WebChannel.initialState evs).forwardInFlight ≤ 1 ∧
    (WebChannel.engineRun WebChannel.initialState evs).backInFlight ≤ 1 ∧
    (WebChannel.engineRun WebChannel.initialState evs).sentToServer ++
        (WebChannel.engineRun WebChannel.initialState evs).forwardQueue =
      (WebChannel.engineRun WebChannel.initialState evs).acceptedSends ∧
    (∃ rest, (WebChannel.engineRun WebChannel.initialState evs).acceptedSends =
      (WebChannel.engineRun WebChannel.initialState evs).sentToServer ++ rest) ∧
    (t.forwardInFlight ≠ 0 → WebChannel.sendForward t p = Except.ok t2 →
      t2.sentToServer = t.sentToServer) := by
  obtain ⟨h1, h2, h3, -⟩ := WebChannel.engineInv_run evs
  refine ⟨h1, h2, h3, ⟨_, h3.symm⟩, ?_⟩
  intro hf hs
  cases hc : t.closed with
  | true => simp [WebChannel.sendForward, hc] at hs
  | false =>
    simp [WebChannel.sendForward, hc, hf] at hs
    rw [← hs]

/-- Witness for C4: with a forward request in flight, a second `sendForward`
queues its payload and dispatches nothing. -/
theorem claimC4_witness :
    ({ WebChannel.initialState with
        forwardInFlight := 1,
        forwardQueue := ["b"], acceptedSends := ["b"] } :
      WebChannel.EngineState).sentToServer =
    ({ WebChannel.initialState with forwardInFlight := 1 } :
      WebChannel.EngineState).sentToServer :=
  (claimC4_single_flight_ordering [] _ "b" _).2.2.2.2 (by decide) rfl

/-- Claim C5: calling `openBackChannel()` while a back-channel request is
outstanding is a no-op — the state after the call equals the state before it
— and at most one open back-channel request ever exists in a reachable
state. -/
theorem claimC5_openBackChannel_idempotent (s : WebChannel.EngineState)
    (evs : List WebChannel.Event) :
    (s.backInFlight ≠ 0 → WebChannel.openBackChannel s = s) ∧
    (WebChannel.engineRun WebChannel.initialState evs).backInFlight ≤ 1 := by
  constructor
  · intro h
    cases hc : s.closed with
    | true => simp [WebChannel.openBackChannel, hc]
    | false => simp [WebChannel.openBackChannel, hc, h]
  · exact (WebChannel.engineInv_run evs).2.1

/-- Witness for C5: re-invoking `openBackChannel` with one back request
outstanding changes nothing. -/
theorem claimC5_witness :
    WebChannel.openBackChannel
      { WebChannel.initialState with backInFlight := 1 } =
      { WebChannel.initialState with backInFlight := 1 } :=
  (claimC5_openBackChannel_idempotent _ []).1 (by decide)

/-- Claim C6: when the pending back-channel request completes without a
server close signal on a non-closed channel, the engine immediately starts a
new back-channel request and the channel stays open; when the channel is
closed at completion time, no new back-channel request is started. -/
theorem claimC6_back_reopen (s : WebChannel.EngineState) (b sc : Bool) :
    (s.backInFlight ≠ 0 → s.closed = false →
      (WebChannel.onBackComplete s b false).backInFlight = 1 ∧
      (WebChannel.onBackComplete s b false).closed = false) ∧
    (s.closed = true → s.backInFlight ≤ 1 →
      (WebChannel.onBackComplete s b sc).backInFlight = 0) := by
  constructor
  · intro h0 hc
    simp [WebChannel.onBackComplete, h0, hc]
  · intro hc hb
    exact WebChannel.onBackComplete_closed_noReopen s b sc hb hc

/-- Witness for C6: a back completion on an open channel reopens the back
channel; on a closed channel it does not. -/
theorem claimC6_witness :
    (WebChannel.onBackComplete
      { WebChannel.initialState with backInFlight := 1 } true
      false).backInFlight = 1 ∧
    (WebChannel.onBackComplete
      { WebChannel.initialState with backInFlight := 1, closed := true } true
      false).backInFlight = 0 := by
  constructor
  · exact ((claimC6_back_reopen
      { WebChannel.initialState with backInFlight := 1 } true false).1
        (by decide) rfl).1
  · exact (claimC6_back_reopen
      { WebChannel.initialState with backInFlight := 1, closed := true } true
        false).2 rfl (by decide)

/-- Claim C7: `sendForward` on a closed channel fails synchronously with
`ChannelClosedError` and leaves the state unchanged (nothing is retried);
on an open channel with a forward request outstanding, the payload is queued
— neither rejected nor dispatched concurrently. -/
theorem claimC7_sendForward_closed (s : WebChannel.EngineState) (p : String) :
    (s.closed = true →
      WebChannel.sendForward s p =
        Except.error WebChannel.ChannelError.channelClosed ∧
      WebChannel.engineStep s (WebChannel.Event.send p) = s) ∧
    (s.closed = false → s.forwardInFlight ≠ 0 →
      WebChannel.sendForward s p = Except.ok
        { s with forwardQueue := s.forwardQueue ++ [p],
                 acceptedSends := s.acceptedSends ++ [p] }) := by
  constructor
  · intro hc
    constructor
    · simp [WebChannel.sendForward, hc]
    · simp [WebChannel.engineStep, WebChannel.sendForward, hc]
  · intro hc h0
    simp [WebChannel.sendForward, hc, h0]

/-- Witness for C7: sending on a closed channel errors and changes nothing;
sending with a forward request in flight queues the payload. -/
theorem claimC7_witness :
    WebChannel.sendForward
      { WebChannel.initialState with closed := true } "m" =
      Except.error WebChannel.ChannelError.channelClosed ∧
    WebChannel.sendForward
      { WebChannel.initialState with forwardInFlight := 1 } "m" =
      Except.ok { WebChannel.initialState with
        forwardInFlight := 1,
        forwardQueue := ["m"], acceptedSends := ["m"] } := by
  constructor
  · exact ((claimC7_sendForward_closed
      { WebChannel.initialState with closed := true } "m").1 rfl).1
  · exact (claimC7_sendForward_closed
      { WebChannel.initialState with forwardInFlight := 1 } "m").2 rfl
        (by decide)

/-- Claim C8: once the channel is closed, no response data is ever delivered
to the Delegate again — any later event sequence leaves `delivered`
unchanged and the channel closed; a request completing after close is still
recorded in the connection state but delivers no data; and automatic
back-channel reopening is suppressed. -/
theorem claimC8_no_data_after_close (s : WebChannel.EngineState)
    (evs : List WebChannel.Event) (b sc : Bool) :
    (s.closed = true →
      (WebChannel.engineRun s evs).delivered = s.delivered ∧
      (WebChannel.engineRun s evs).closed = true) ∧
    (s.closed = true → s.backInFlight ≠ 0 →
      (WebChannel.onBackComplete s b sc).connState =
        WebChannel.ConnState.onCompletion s.connState b ∧
      (WebChannel.onBackComplete s b sc).delivered = s.delivered) ∧
    (s.closed = true → s.backInFlight ≤ 1 →
      (WebChannel.onBackComplete s b sc).backInFlight = 0) := by
  refine ⟨?_, ?_, ?_⟩
  · intro hc
    have h := WebChannel.engineRun_closed_frozen s evs hc
    exact ⟨h.2, h.1⟩
  · intro hc h0
    refine ⟨WebChannel.onBackComplete_connState_pending s b sc h0, ?_⟩
    simp [WebChannel.onBackComplete, h0, hc]
  · intro hc hb
    exact WebChannel.onBackComplete_closed_noReopen s b sc hb hc

/-- Witness for C8: on a closed channel, a data chunk followed by a back
completion delivers nothing to the Delegate. -/
theorem claimC8_witness :
    (WebChannel.engineRun
      { WebChannel.initialState with closed := true, backInFlight := 1 }
      [WebChannel.Event.data "x",
       WebChannel.Event.backDone true false]).delivered =
      ({ WebChannel.initialState with closed := true, backInFlight := 1 } :
        WebChannel.EngineState).delivered :=
  ((claimC8_no_data_after_close _
    [WebChannel.Event.data "x", WebChannel.Event.backDone true false]
    true false).1 rfl).1

/-- Claim C10: `FlashObject.createDom` throws
`Error(goog.ui.Component.Error.NOT_SUPPORTED)` if and only if a required
flash version is set and the installed plugin does not satisfy it; otherwise
it creates a `DIV` element with class `goog-ui-media-flash`, sets it as the
component's element, and leaves every other field unchanged. -/
theorem claimC10_createDom (isVersion : String → Bool)
    (o : FlashObjectModel.FlashObject) :
    (FlashObjectModel.FlashObject.createDom isVersion o =
        Except.error FlashObjectModel.ComponentError.notSupported ↔
      ∃ v, o.requiredVersion = some v ∧ isVersion v = false) ∧
    ((∀ v, o.requiredVersion = some v → isVersion v = true) →
      FlashObjectModel.FlashObject.createDom isVersion o = Except.ok
        { o with element := some
                   { tagName := "DIV",
                     className := FlashObjectModel.CSS_CLASS } }) := by
  cases hv : o.requiredVersion with
  | none =>
    constructor
    · constructor
      · intro h
        simp [FlashObjectModel.FlashObject.createDom,
          FlashObjectModel.FlashObject.hasRequiredVersion, hv] at h
      · rintro ⟨v, hv2, -⟩
        cases hv2
    · intro _
      simp [FlashObjectModel.FlashObject.createDom,
        FlashObjectModel.FlashObject.hasRequiredVersion, hv]
  | some v =>
    cases hiv : isVersion v with
    | false =>
      constructor
      · exact ⟨fun _ => ⟨v, rfl, hiv⟩, fun _ => by
          simp [FlashObjectModel.FlashObject.createDom,
            FlashObjectModel.FlashObject.hasRequiredVersion, hv, hiv]⟩
      · intro h
        have h2 := h v rfl
        rw [h2] at hiv
        cases hiv
    | true =>
      constructor
      · constructor
        · intro h
          simp [FlashObjectModel.FlashObject.createDom,
            FlashObjectModel.FlashObject.hasRequiredVersion, hv, hiv] at h
        · rintro ⟨v2, hv2, hiv2⟩
          obtain rfl : v = v2 := Option.some.inj hv2
          rw [hiv] at hiv2
          cases hiv2
      · intro _
        simp [FlashObjectModel.FlashObject.createDom,
          FlashObjectModel.FlashObject.hasRequiredVersion, hv, hiv]

/-- Witness for C10: with required version `"9"` and a plugin that fails the
version check, `createDom` throws `NOT_SUPPORTED`; with a plugin that passes
it, `createDom` creates the `DIV` and only sets the element field. -/
theorem claimC10_witness :
    FlashObjectModel.FlashObject.createDom (fun _ => false)
      { flashUrl := "u", wmode := "window", requiredVersion := some "9",
        width := none, height := none, backgroundColor := "#000000",
        allowScriptAccess := "sameDomain", flashVars := [], element := none } =
      Except.error FlashObjectModel.ComponentError.notSupported ∧
    FlashObjectModel.FlashObject.createDom (fun _ => true)
      { flashUrl := "u", wmode := "window", requiredVersion := some "9",
        width := none, height := none, backgroundColor := "#000000",
        allowScriptAccess := "sameDomain", flashVars := [], element := none } =
      Except.ok
        { flashUrl := "u", wmode := "window", requiredVersion := some "9",
          width := none, height := none, backgroundColor := "#000000",
          allowScriptAccess := "sameDomain", flashVars := [],
          element := some
            { tagName := "DIV", className := "goog-ui-media-flash" } } := by
  constructor
  · exact (claimC10_createDom (fun _ => false) _).1.mpr ⟨"9", rfl, rfl⟩
  · exact (claimC10_createDom (fun _ => true) _).2 (fun v hv => rfl)
